import Mathlib

/-!
Verification of the Polarity_App report pipeline (`src/polarity_app.py`).

This file gives a shallow embedding of the pure core of the program:
the tabular source reader (`_open_csv`, `_validate_headers`), the domain
normalizer (`_detect_aimex`, `_build_slot_string`, `_build_output_rows`),
and the observable parts of the layout stage (`_write_excel`,
`_collect_image_stems`, `_find_image_for_part`, `run`).

Conventions of the embedding:
- Python strings are Lean `String`; `str.strip()`, `str.upper()`,
  `str.lower()` and friends are re-implemented over the character list
  (ASCII semantics), agreeing with Python on the ASCII data this
  program handles.
- A CSV record (`Dict[str, str]`) is an association list; the dict
  comprehension "last duplicate key wins" is modelled by reversing the
  list built in header order, so that the first lookup hit is the last
  written binding.
- `PolarityAppError` is the inductive `PErr`; each constructor carries
  the information of the corresponding `raise` site, and `PErr.message`
  reproduces the message text.
- Fallible code returns `Except PErr`; the file-writing effect of
  `wb.save` is modelled by a Boolean "file written" component so that
  all-or-nothing behaviour is statable.
- Filesystem facts (file existence, directory listings, library
  availability) are inputs, collected in the `Env` structure.
-/

namespace PolarityApp

/-- Python whitespace for `str.strip()` (ASCII subset). -/
def isPySpace (c : Char) : Bool :=
  c = ' ' || c = '\t' || c = '\n' || c = '\r' || c = '\x0b' || c = '\x0c'

/-- Python `str.strip()` on a character list. -/
def pystripList (cs : List Char) : List Char :=
  ((cs.dropWhile isPySpace).reverse.dropWhile isPySpace).reverse

/-- Python `str.strip()`. -/
def pystrip (s : String) : String := String.mk (pystripList s.data)

/-- ASCII upper-casing of one character (Python `str.upper()` on ASCII). -/
def asciiUpper (c : Char) : Char :=
  if 'a' ≤ c ∧ c ≤ 'z' then Char.ofNat (c.toNat - 32) else c

/-- ASCII lower-casing of one character (Python `str.lower()` on ASCII). -/
def asciiLower (c : Char) : Char :=
  if 'A' ≤ c ∧ c ≤ 'Z' then Char.ofNat (c.toNat + 32) else c

def pyupper (s : String) : String := String.mk (s.data.map asciiUpper)

def pylower (s : String) : String := String.mk (s.data.map asciiLower)

/-- The single-quote character (the one Python spells `"'"` in
`location.replace("'", "")`). -/
def quoteChar : Char := Char.ofNat 39

/-- A single-quote character as a string. -/
def squote : String := String.singleton quoteChar

/-- `location.replace("'", "")`: remove every single quote. -/
def removeQuotes (s : String) : String :=
  String.mk (s.data.filter (fun c => c ≠ quoteChar))

/-- Python `str.rstrip(":")`: remove every trailing colon. -/
def rstripColons (s : String) : String :=
  String.mk ((s.data.reverse.dropWhile (fun c => c = ':')).reverse)

/-- Python `str.strip("-")`: remove leading and trailing hyphen characters. -/
def stripDashes (s : String) : String :=
  String.mk (((s.data.dropWhile (fun c => c = '-')).reverse.dropWhile (fun c => c = '-')).reverse)

/-- Characters after the first occurrence of `c`, i.e. Python
`s.split(c, 1)[1]` (meaningful when `c` occurs in the list). -/
def afterFirstChar (c : Char) : List Char → List Char
  | [] => []
  | x :: xs => if x = c then xs else afterFirstChar c xs

/-- Numeric value of an ASCII digit. -/
def digitVal (c : Char) : Nat := c.toNat - 48

/-- Digits of a Python integer literal after the first one: digit runs
separated by single underscores (`int("1_000")` is legal, `"1__0"`,
`"1_"` are not). -/
def parseUDigits : Nat → List Char → Option Nat
  | acc, [] => some acc
  | acc, '_' :: c :: rest =>
      if c.isDigit then parseUDigits (acc * 10 + digitVal c) rest else none
  | acc, c :: rest =>
      if c.isDigit then parseUDigits (acc * 10 + digitVal c) rest else none

/-- A nonempty digit sequence (underscore-grouped), starting with a digit. -/
def parsePyIntNat : List Char → Option Nat
  | [] => none
  | c :: rest => if c.isDigit then parseUDigits (digitVal c) rest else none

/-- Sign handling of Python `int(...)`. -/
def parsePyIntCore : List Char → Option Int
  | '+' :: rest => (parsePyIntNat rest).map (fun n => (n : Int))
  | '-' :: rest => (parsePyIntNat rest).map (fun n => -(n : Int))
  | l => (parsePyIntNat l).map (fun n => (n : Int))

/-- Python `int(s)` on ASCII input: strip whitespace, optional sign,
underscore-grouped digits; `none` models `ValueError`. -/
def parsePyInt (s : String) : Option Int := parsePyIntCore (pystripList s.data)

/-- `OUTPUT_COLUMNS` of the source (the Excel table headers). -/
def progPolName : String := "Program" ++ squote ++ "s Polarities"

def packPolName : String := "Package" ++ squote ++ "s polarities"

def OUTPUT_COLUMNS : List String :=
  ["Modulo", "Slot", "Part Number", "Package", progPolName, packPolName,
   "Name of shape", "Coments or presentations changes"]

/-- `REQUIRED_FEEDER_COLUMNS` of the source. -/
def REQUIRED_FEEDER_COLUMNS : List String :=
  ["ModuleNumber", "SideNo", "Location", "PartNumber", "PartComment",
   "PackageName", "PartShapeName", "FeederType", "TapeWidth", "FeedPitch", "QTY"]

/-- `PolarityAppError`: one constructor per `raise PolarityAppError` site. -/
inductive PErr
  | invalidRoot
  | mkdirFailed
  | notFound (name : String)
  | formatTooFewRows
  | missingColumns (missing : List String)
  | encodingProblem
  | noData
  | emptyAfterFilter
  | missingWorkbook
  | missingImageSupport
  | saveFailed
  deriving DecidableEq

/-- The human-readable message each error is raised with (dynamic parts of
`mkdirFailed` and `saveFailed` elided). -/
def PErr.message : PErr → String
  | .invalidRoot => "The selected folder does not exist or is not a valid folder."
  | .mkdirFailed => "Could not create DATA/IMAGES folders: "
  | .notFound n => "Required file not found: " ++ n
  | .formatTooFewRows => "FeederSetup.csv does not have the expected format (too few rows)."
  | .missingColumns ms =>
      "Required columns are missing in FeederSetup.csv: " ++ String.intercalate ", " ms
  | .encodingProblem =>
      "FeederSetup.csv could not be read due to encoding problems (UTF-8/Latin-1)."
  | .noData => "FeederSetup.csv does not contain data."
  | .emptyAfterFilter => "After filtering QTY=0 there are no rows left to process."
  | .missingWorkbook =>
      "The " ++ squote ++ "openpyxl" ++ squote ++ " library is not installed. " ++
        "Install it with: pip install openpyxl"
  | .missingImageSupport =>
      "Pillow is required to insert images into Excel. Install it with: pip install pillow"
  | .saveFailed => "The Excel file could not be saved: "

/-- The spec groups the two "nothing left to process" failures
(`noData` for an empty data section, `emptyAfterFilter` after the QTY
filter) as the empty-dataset error. -/
def IsEmptyDatasetError (e : PErr) : Prop :=
  e = PErr.noData ∨ e = PErr.emptyAfterFilter

/-- A normalized CSV record: `Dict[str, str]` keyed by header name. -/
abbrev FeederRecord := List (String × String)

/-- `row.get(k) or ""`. -/
def fget (r : FeederRecord) (k : String) : String := (r.lookup k).getD ""

/-- `{h: (r[i].strip() if i < len(r) else "") for i, h in enumerate(headers)}`:
reversal makes the last duplicate header win under `List.lookup`. -/
def rowDict (headers : List String) (cells : List String) : FeederRecord :=
  ((headers.enum).map (fun p => (p.2, pystrip (cells.getD p.1 "")))).reverse

/-- The `_norm` helper of `_open_csv`:
`(s or "").strip().lower().rstrip(":")`. -/
def pynorm (s : String) : String := rstripColons (pylower (pystrip s))

/-- Index of the first job-header cell equal to `"line"` after normalizing. -/
def lineLabelIdx (hs : List String) : Option Nat :=
  List.findIdx? (fun h => pynorm h == "line") hs

/-- The line-name extraction block of `_open_csv` (lines 141-155):
row 0 holds labels, row 1 holds values; on a label hit inside row 1,
take that column, else with at least 8 value cells fall back to column
index 7, else keep the prior value. -/
def extractLineName (prior : String) (rows : List (List String)) : String :=
  let jobHeaders := (rows.getD 0 []).map pystrip
  let jobValues := rows.getD 1 []
  match lineLabelIdx jobHeaders with
  | some idx =>
      if idx < jobValues.length then pystrip (jobValues.getD idx "")
      else if 8 ≤ jobValues.length then pystrip (jobValues.getD 7 "")
      else prior
  | none =>
      if 8 ≤ jobValues.length then pystrip (jobValues.getD 7 "")
      else prior

/-- `_validate_headers`: the required columns absent from the header row,
in `REQUIRED_FEEDER_COLUMNS` order. -/
def missingOf (headers : List String) : List String :=
  REQUIRED_FEEDER_COLUMNS.filter (fun h => !(headers.contains h))

/-- Body of one iteration of the encoding loop of `_open_csv`, applied to
the successfully decoded CSV rows: the too-few-rows check, the line-name
extraction (a state write that happens before header validation), header
validation, and data-row collection.  The first component is the line
name after the call. -/
def tryDecoded (prior : String) (rows : List (List String)) :
    String × Except PErr (List FeederRecord) :=
  if rows.length < 3 then (prior, Except.error PErr.formatTooFewRows)
  else
    let lineName := extractLineName prior rows
    let headers := (rows.getD 2 []).map pystrip
    let missing := missingOf headers
    if missing.isEmpty then
      let dataRows := rows.drop 3
      let kept := dataRows.filter (fun r => r.any (fun c => pystrip c != ""))
      (lineName, Except.ok (kept.map (rowDict headers)))
    else (lineName, Except.error (PErr.missingColumns missing))

/-- The two decode attempts of `_open_csv`. -/
inductive Enc
  | utf8sig
  | latin1
  deriving DecidableEq

/-- `_open_csv`.  `decode e` is the row list the file yields under
encoding `e` (`none` models a `UnicodeError`).  The control flow mirrors
the source exactly: a `UnicodeError` runs the `continue` of the
`except` clause, which skips the `if last_exc is not None: raise`
block, so after both encodings fail the function falls through to the
final `return []`. -/
def open_csv (fileExists : Bool) (prior : String)
    (decode : Enc → Option (List (List String))) :
    String × Except PErr (List FeederRecord) :=
  if fileExists then
    match decode Enc.utf8sig with
    | some rows => tryDecoded prior rows
    | none =>
        match decode Enc.latin1 with
        | some rows => tryDecoded prior rows
        | none => (prior, Except.ok [])
  else (prior, Except.error (PErr.notFound "FeederSetup.csv"))

/-- The side remapping shared by `_detect_aimex` and `_build_slot_string`. -/
def mapSide (s : String) : String :=
  if s = "1" then "2" else if s = "0" then "1" else s

/-- `_detect_aimex`: fold over the records; any remapped side equal to
`"2"` latches the flag. -/
def detect_aimex (rows : List FeederRecord) : Bool :=
  rows.foldl
    (fun aimex r => if mapSide (pystrip (fget r "SideNo")) = "2" then true else aimex)
    false

/-- `_build_slot_string`. -/
def build_slot_string (r : FeederRecord) (aimex : Bool) : String :=
  let module := pystrip (fget r "ModuleNumber")
  let side := pystrip (fget r "SideNo")
  let location := pystrip (removeQuotes (fget r "Location"))
  let mapped := mapSide side
  if aimex ∧ mapped ≠ "" then stripDashes (module ++ "-" ++ mapped ++ "-" ++ location)
  else stripDashes (module ++ "-" ++ location)

/-- QTY parsing in `_build_output_rows`:
`int(qty_str) if qty_str else 0`, with `ValueError` mapped to 0. -/
def qty_int (q : String) : Int :=
  let s := pystrip q
  if s = "" then 0 else (parsePyInt s).getD 0

/-- The quantity filter predicate: keep a record iff its QTY value is
a nonzero integer. -/
def keepRow (r : FeederRecord) : Bool := qty_int (fget r "QTY") != 0

/-- One line of the final report (`output_row` of `_build_output_rows`). -/
structure OutputRow where
  modulo : String
  slot : String
  partNumber : String
  package : String
  progPol : String
  packPol : String
  shapeName : String
  comments : String
  deriving DecidableEq

/-- `row.get(col_name, "")` on an output row. -/
def ofield (r : OutputRow) (k : String) : String :=
  if k = "Modulo" then r.modulo
  else if k = "Slot" then r.slot
  else if k = "Part Number" then r.partNumber
  else if k = "Package" then r.package
  else if k = progPolName then r.progPol
  else if k = packPolName then r.packPol
  else if k = "Name of shape" then r.shapeName
  else if k = "Coments or presentations changes" then r.comments
  else ""

/-- Construction of one output row in `_build_output_rows`: the slot
string is computed but the emitted `"Slot"` value is the trimmed raw
location and `"Modulo"` is the trimmed raw module number. -/
def toOutputRow (r : FeederRecord) (aimex : Bool) : OutputRow :=
  let _slotString := build_slot_string r aimex
  { modulo := pystrip (fget r "ModuleNumber")
    slot := pystrip (fget r "Location")
    partNumber := pystrip (fget r "PartNumber")
    package := pystrip (fget r "PackageName")
    progPol := ""
    packPol := ""
    shapeName := pystrip (fget r "PartShapeName")
    comments := pystrip (fget r "PartComment") }

/-- `_build_output_rows`. -/
def build_output_rows (feeder_rows : List FeederRecord) :
    Except PErr (List OutputRow) :=
  if feeder_rows.isEmpty then Except.error PErr.noData
  else
    let filtered := feeder_rows.filter keepRow
    if filtered.isEmpty then Except.error PErr.emptyAfterFilter
    else
      let aimex := detect_aimex filtered
      Except.ok (filtered.map (fun r => toOutputRow r aimex))

/-- Fixed sheet geometry of `_write_excel` (1-indexed rows). -/
def start_row : Nat := 3

def info_labels : List String :=
  ["Model", "Line", "Revision", "Machine Programmer", "Quality", "Fecha"]

def header_row : Nat := start_row + info_labels.length + 1

def data_start_row : Nat := header_row + 1

/-- Passive-material detection in `_write_excel` (lines 385-395), on the
`"Name of shape"` value of an output row. -/
def is_passive_shape (s : String) : Bool :=
  let shape := pyupper (pystrip s)
  if shape.data.contains '_' then
    let after := afterFirstChar '_' shape.data
    if after.isEmpty then false
    else if after.take 3 = ['C', 'O', 'N'] then false
    else (after.headD ' ' == 'C' || after.headD ' ' == 'R')
  else false

/-- One styled data row of the main table: per column, the column name,
the cell value, and whether the passive highlight fill is applied to it. -/
def styled_row (r : OutputRow) : List (String × String × Bool) :=
  let isP := is_passive_shape (ofield r "Name of shape")
  OUTPUT_COLUMNS.map (fun col =>
    (col, ofield r col,
      isP && (col == "Name of shape" || col == "Coments or presentations changes")))

/-- The styled table body: one styled row per output row. -/
def table_body (rows : List OutputRow) : List (List (String × String × Bool)) :=
  rows.map styled_row

/-- One directory entry of the IMAGES folder. -/
structure DirEntry where
  name : String
  isFile : Bool
  deriving DecidableEq

/-- Python `pathlib` stem: the name without its final dot-suffix (a dot
at position 0 or at the very end yields no suffix). -/
def pathStem (n : String) : String :=
  let cs := n.data
  match (cs.enum.filter (fun p => p.2 == '.')).getLast? with
  | some p => if 0 < p.1 && p.1 + 1 < cs.length then String.mk (cs.take p.1) else n
  | none => n

/-- The filesystem and library facts a run observes. -/
structure Env where
  rootIsDir : Bool
  ensureStructureOk : Bool
  feederFileExists : Bool
  decode : Enc → Option (List (List String))
  imagesDir : Option (List DirEntry)
  workbookAvailable : Bool
  imageSupportAvailable : Bool
  saveOk : Bool

/-- `_collect_image_stems`: stems of every regular file of the images
directory, `[]` when the directory does not exist. -/
def collect_image_stems (env : Env) : List String :=
  match env.imagesDir with
  | none => []
  | some entries => (entries.filter (fun e => e.isFile)).map (fun e => pathStem e.name)

/-- `_find_image_for_part`: first extension in priority order for which
`IMAGES/<part><ext>` is a regular file. -/
def find_image_for_part (env : Env) (pn : String) : Option String :=
  let p := pystrip pn
  if p = "" then none
  else
    match env.imagesDir with
    | none => none
    | some entries =>
        [".bmp", ".png", ".jpg", ".jpeg"].findSome? (fun ext =>
          if entries.any (fun e => e.name == p ++ ext && e.isFile) then some (p ++ ext)
          else none)

/-- The images actually embedded by the insertion loop of `_write_excel`:
per output row with a matching image asset, the Excel row index and the
asset file name. -/
def embedded_images (env : Env) (rows : List OutputRow) : List (Nat × String) :=
  (rows.enum).filterMap (fun p =>
    (find_image_for_part env (ofield p.2 "Part Number")).map
      (fun n => (data_start_row + p.1, n)))

/-- The summary returned by a successful run. -/
structure ProcessResult where
  rowsWritten : Nat
  imagesFound : Nat
  deriving DecidableEq

/-- `_write_excel`, reduced to its observable outcome.  Order of checks as
in the source: workbook availability first; then, whenever the row list
is nonempty, image support (before any per-row image lookup); then the
save, which is the only point at which the output file comes into
existence (the second component). -/
def write_excel (env : Env) (rows : List OutputRow) :
    Except PErr ProcessResult × Bool :=
  if env.workbookAvailable then
    if !rows.isEmpty && !env.imageSupportAvailable then
      (Except.error PErr.missingImageSupport, false)
    else if env.saveOk then
      (Except.ok { rowsWritten := rows.length,
                   imagesFound := (collect_image_stems env).length }, true)
    else (Except.error PErr.saveFailed, false)
  else (Except.error PErr.missingWorkbook, false)

/-- Continuation of `run` after `_build_output_rows`: an error aborts the
run (nothing written), otherwise `_write_excel` runs. -/
def runFromOutputRows (env : Env) (res : Except PErr (List OutputRow)) :
    Except PErr ProcessResult × Bool :=
  match res with
  | Except.error e => (Except.error e, false)
  | Except.ok orows => write_excel env orows

/-- Continuation of `run` after `_open_csv`: an error aborts the run,
otherwise the records go through the normalizer. -/
def runFromRecords (env : Env) (res : Except PErr (List FeederRecord)) :
    Except PErr ProcessResult × Bool :=
  match res with
  | Except.error e => (Except.error e, false)
  | Except.ok records => runFromOutputRows env (build_output_rows records)

/-- `PolarityDataProcessor.run`: root check, folder creation, reader,
normalizer, writer.  The Boolean records whether the output file was
written.  The seeding of job name / revision / side from the folder name
only fills header text fields and is not modelled here. -/
def run (env : Env) : Except PErr ProcessResult × Bool :=
  if env.rootIsDir then
    if env.ensureStructureOk then
      runFromRecords env (open_csv env.feederFileExists "" env.decode).2
    else (Except.error PErr.mkdirFailed, false)
  else (Except.error PErr.invalidRoot, false)

/-! ### Concrete inputs used by witnesses and counterexamples -/

/-- A record carrying only a QTY cell. -/
def rQ (q : String) : FeederRecord := [("QTY", q)]

/-- A surviving record whose location contains a single quote. -/
def recC2 : FeederRecord :=
  [("ModuleNumber", "M1"), ("SideNo", "1"), ("Location", "A" ++ squote ++ "B"), ("QTY", "2")]

/-- A record that makes the dataset alternate-type (SideNo 1 remaps to 2). -/
def recC3a : FeederRecord :=
  [("ModuleNumber", "M"), ("SideNo", "1"), ("Location", "L"), ("QTY", "1")]

/-- A record with an empty side indicator. -/
def recC3b : FeederRecord :=
  [("ModuleNumber", "M"), ("SideNo", ""), ("Location", "L"), ("QTY", "1")]

/-- An environment whose feeder file decodes under no encoding. -/
def envC6 : Env :=
  { rootIsDir := true
    ensureStructureOk := true
    feederFileExists := true
    decode := fun _ => none
    imagesDir := some []
    workbookAvailable := true
    imageSupportAvailable := true
    saveOk := true }

/-- An environment whose CSV header row has only `ModuleNumber`. -/
def envC7 : Env :=
  { rootIsDir := true
    ensureStructureOk := true
    feederFileExists := true
    decode := fun e => match e with
      | Enc.utf8sig => some [[], [], ["ModuleNumber"]]
      | Enc.latin1 => none
    imagesDir := some []
    workbookAvailable := true
    imageSupportAvailable := true
    saveOk := true }

/-- The same bad header row, readable only through the Latin-1 fallback
(the UTF-8-sig decode fails). -/
def envC7lat : Env :=
  { rootIsDir := true
    ensureStructureOk := true
    feederFileExists := true
    decode := fun e => match e with
      | Enc.utf8sig => none
      | Enc.latin1 => some [[], [], ["ModuleNumber"]]
    imagesDir := some []
    workbookAvailable := true
    imageSupportAvailable := true
    saveOk := true }

/-- A well-formed single-row dataset, an existing empty images folder, and
no image-embedding capability. -/
def envC8 : Env :=
  { rootIsDir := true
    ensureStructureOk := true
    feederFileExists := true
    decode := fun e => match e with
      | Enc.utf8sig => some [[], [], REQUIRED_FEEDER_COLUMNS,
          ["1", "0", "A1", "PN1", "", "PKG", "RC_R0402", "", "", "", "2"]]
      | Enc.latin1 => none
    imagesDir := some []
    workbookAvailable := true
    imageSupportAvailable := false
    saveOk := true }

/-- Same dataset with image support present. -/
def envC8ok : Env :=
  { envC8 with imageSupportAvailable := true }

/-- A label row holding `"Line"` at column index 8 while the value row has
only 8 cells (indices 0..7). -/
def rowsC9 : List (List String) :=
  [["a", "b", "c", "d", "e", "f", "g", "h", "Line"],
   ["v0", "v1", "v2", "v3", "v4", "v5", "v6", "v7"],
   ["x"]]

/-- A successful run whose images folder holds one regular file and one
subdirectory. -/
def envC10 : Env :=
  { rootIsDir := true
    ensureStructureOk := true
    feederFileExists := true
    decode := fun e => match e with
      | Enc.utf8sig => some [[], [], REQUIRED_FEEDER_COLUMNS,
          ["1", "0", "A1", "PN1", "", "PKG", "RC_R0402", "", "", "", "2"]]
      | Enc.latin1 => none
    imagesDir := some [{ name := "whatever.txt", isFile := true },
                       { name := "sub", isFile := false }]
    workbookAvailable := true
    imageSupportAvailable := true
    saveOk := true }

/-- An output row whose shape name is a passive (resistor) package. -/
def oRC : OutputRow :=
  { modulo := "1", slot := "A1", partNumber := "PN", package := "PKG",
    progPol := "", packPol := "", shapeName := "RC_R0402", comments := "cm" }

/-! ### Helper lemmas -/

theorem build_output_rows_ok_eq (rows : List FeederRecord) (out : List OutputRow)
    (h : build_output_rows rows = Except.ok out) :
    out = (rows.filter keepRow).map
      (fun r => toOutputRow r (detect_aimex (rows.filter keepRow))) := by
  unfold build_output_rows at h
  by_cases he : rows.isEmpty
  · simp [he] at h
  · by_cases hf : (rows.filter keepRow).isEmpty
    · simp [he, hf] at h
    · simp [he, hf] at h
      exact h.symm

theorem build_output_rows_filter_nil (rows : List FeederRecord)
    (hf : rows.filter keepRow = []) :
    ∃ e, build_output_rows rows = Except.error e ∧ IsEmptyDatasetError e := by
  by_cases he : rows.isEmpty
  · exact ⟨PErr.noData, by unfold build_output_rows; simp [he], Or.inl rfl⟩
  · exact ⟨PErr.emptyAfterFilter, by unfold build_output_rows; simp [he, hf], Or.inr rfl⟩

/-! ### Claims -/

/-- C1: the normalizer emits exactly one `ReportRow` per record whose QTY
field parses to a nonzero integer (empty or non-numeric QTY counts as 0 and
is excluded, `"-1"` and `"3"` are kept), in source order, and it fails with
an empty-dataset error when nothing survives the filter. -/
theorem C1_quantity_filter (rows : List FeederRecord) :
    (∀ out, build_output_rows rows = Except.ok out →
        out = (rows.filter keepRow).map
          (fun r => toOutputRow r (detect_aimex (rows.filter keepRow))))
    ∧ (rows.filter keepRow = [] →
        ∃ e, build_output_rows rows = Except.error e ∧ IsEmptyDatasetError e)
    ∧ keepRow (rQ "-1") = true ∧ keepRow (rQ "3") = true ∧ keepRow (rQ "0") = false
    ∧ keepRow (rQ "") = false ∧ keepRow (rQ "abc") = false := by
  exact ⟨fun out h => build_output_rows_ok_eq rows out h,
    build_output_rows_filter_nil rows,
    by decide, by decide, by decide, by decide, by decide⟩

/-- Witness for C1: a surviving record is emitted as the single output row,
and an all-filtered-out dataset yields the empty-dataset error. -/
theorem C1_quantity_filter_witness :
    [toOutputRow (rQ "3") false]
      = ([rQ "3"].filter keepRow).map
          (fun r => toOutputRow r (detect_aimex ([rQ "3"].filter keepRow)))
    ∧ build_output_rows [rQ "0"] = Except.error PErr.emptyAfterFilter
    ∧ IsEmptyDatasetError PErr.emptyAfterFilter := by
  refine ⟨(C1_quantity_filter [rQ "3"]).1 [toOutputRow (rQ "3") false] rfl, ?_, ?_⟩
  · obtain ⟨e, he, _⟩ := (C1_quantity_filter [rQ "0"]).2.1 (by decide)
    exact rfl
  · exact Or.inr rfl

/-- C2: the emitted `"Slot"` column of every output row is the trimmed raw
`Location` of its source record (quotes kept) and `"Modulo"` is the trimmed
raw `ModuleNumber`; the slot string computed by the remapping rule differs
from the emitted value. -/
theorem C2_emitted_slot_is_raw_location (rows : List FeederRecord)
    (out : List OutputRow) (h : build_output_rows rows = Except.ok out) :
    (∀ o ∈ out, ∃ r, r ∈ rows ∧ keepRow r = true
        ∧ o.slot = pystrip (fget r "Location")
        ∧ o.modulo = pystrip (fget r "ModuleNumber"))
    ∧ (toOutputRow recC2 true).slot = "A" ++ squote ++ "B"
    ∧ build_slot_string recC2 true ≠ (toOutputRow recC2 true).slot := by
  refine ⟨?_, by decide, by decide⟩
  intro o ho
  rw [build_output_rows_ok_eq rows out h] at ho
  obtain ⟨r, hr, hmap⟩ := List.mem_map.mp ho
  obtain ⟨hrows, hkeep⟩ := List.mem_filter.mp hr
  exact ⟨r, hrows, hkeep, by rw [← hmap]; rfl, by rw [← hmap]; rfl⟩

/-- Witness for C2 at a concrete record whose location holds a quote. -/
theorem C2_witness :
    (toOutputRow recC2 true).slot = pystrip (fget recC2 "Location")
    ∧ build_slot_string recC2 true ≠ (toOutputRow recC2 true).slot := by
  have h := C2_emitted_slot_is_raw_location [recC2] [toOutputRow recC2 true] rfl
  obtain ⟨r, hr, _, hs, _⟩ := h.1 (toOutputRow recC2 true) (List.mem_singleton.mpr rfl)
  rw [List.mem_singleton] at hr
  subst hr
  exact ⟨hs, h.2.2⟩

theorem detect_aimex_foldl (rows : List FeederRecord) (b : Bool) :
    (rows.foldl
        (fun aimex r => if mapSide (pystrip (fget r "SideNo")) = "2" then true else aimex) b)
        = true
      ↔ (b = true ∨ ∃ r ∈ rows, mapSide (pystrip (fget r "SideNo")) = "2") := by
  induction rows generalizing b with
  | nil => simp
  | cons x xs ih =>
      rw [List.foldl_cons, ih]
      by_cases hx : mapSide (pystrip (fget x "SideNo")) = "2" <;>
        simp [hx, List.mem_cons]

/-- C4: the per-record side remapping sends `"1"` to `"2"`, `"0"` to `"1"`
and leaves anything else unchanged, and the dataset is classified AIMEX iff
some record's remapped side equals `"2"`. -/
theorem C4_side_remap_and_aimex (rows : List FeederRecord) :
    (detect_aimex rows = true ↔ ∃ r ∈ rows, mapSide (pystrip (fget r "SideNo")) = "2")
    ∧ mapSide "1" = "2" ∧ mapSide "0" = "1"
    ∧ (∀ s : String, s ≠ "1" → s ≠ "0" → mapSide s = s) := by
  refine ⟨?_, by decide, by decide, ?_⟩
  · unfold detect_aimex
    rw [detect_aimex_foldl]
    simp
  · intro s h1 h0
    unfold mapSide
    rw [if_neg h1, if_neg h0]

/-- Witness for C4: a record with raw side `"1"` makes the dataset AIMEX,
and an unrecognised side value passes through the remapping unchanged. -/
theorem C4_witness :
    detect_aimex [[("SideNo", "1")]] = true ∧ mapSide "7" = "7" := by
  refine ⟨?_, (C4_side_remap_and_aimex []).2.2.2 "7" (by decide) (by decide)⟩
  exact (C4_side_remap_and_aimex [[("SideNo", "1")]]).1.mpr
    ⟨[("SideNo", "1")], List.mem_singleton.mpr rfl, by decide⟩

theorem dropWhile_head_false (p : Char → Bool) : ∀ (l : List Char),
    (∀ c, l.head? = some c → p c = false) → l.dropWhile p = l
  | [], _ => rfl
  | c :: cs, h => by
      rw [List.dropWhile_cons, h c rfl]
      simp

theorem stripDashes_eq_self (s : String)
    (h1 : s.data.head? ≠ some '-') (h2 : s.data.getLast? ≠ some '-') :
    stripDashes s = s := by
  unfold stripDashes
  rw [dropWhile_head_false _ s.data ?hh, dropWhile_head_false _ s.data.reverse ?hr,
    List.reverse_reverse]
  case hh =>
    intro c hc
    simp only [decide_eq_false_iff_not]
    intro hEq
    exact h1 (hEq ▸ hc)
  case hr =>
    intro c hc
    rw [List.head?_reverse] at hc
    simp only [decide_eq_false_iff_not]
    intro hEq
    exact h2 (hEq ▸ hc)

theorem strNe_data_ne (s : String) (h : s ≠ "") : s.data ≠ [] :=
  fun hn => h (String.ext hn)

theorem append_ne_nil_left {l l2 : List Char} (h : l ≠ []) : l ++ l2 ≠ [] := by
  cases l with
  | nil => exact absurd rfl h
  | cons c cs => simp

theorem head?_append_of_ne_nil (l l2 : List Char) (h : l ≠ []) :
    (l ++ l2).head? = l.head? := by
  cases l with
  | nil => exact absurd rfl h
  | cons c cs => rfl

/-- A three-component slot concatenation with clean boundaries is left
unchanged by the hyphen stripping. -/
theorem stripDashes_concat3 (A X B : String)
    (hA : A ≠ "") (hAh : A.data.head? ≠ some '-')
    (hB : B ≠ "") (hBl : B.data.getLast? ≠ some '-') :
    stripDashes (A ++ "-" ++ X ++ "-" ++ B) = A ++ "-" ++ X ++ "-" ++ B := by
  have hAd : A.data ≠ [] := strNe_data_ne A hA
  apply stripDashes_eq_self
  · show ((((A.data ++ "-".data) ++ X.data) ++ "-".data) ++ B.data).head? ≠ some '-'
    rw [head?_append_of_ne_nil _ _ (append_ne_nil_left (append_ne_nil_left
        (append_ne_nil_left hAd))),
      head?_append_of_ne_nil _ _ (append_ne_nil_left (append_ne_nil_left hAd)),
      head?_append_of_ne_nil _ _ (append_ne_nil_left hAd),
      head?_append_of_ne_nil _ _ hAd]
    exact hAh
  · have hsplit : (A ++ "-" ++ X ++ "-" ++ B).data
        = (A ++ "-" ++ X ++ "-").data ++ B.data := rfl
    rw [hsplit, List.getLast?_append]
    cases hg : B.data.getLast? with
    | none => exact absurd (List.getLast?_eq_none_iff.mp hg) (strNe_data_ne B hB)
    | some c =>
        have hor : (some c).or ((A ++ "-" ++ X ++ "-").data.getLast?) = some c := rfl
        rw [hor]
        rw [hg] at hBl
        exact hBl

/-- C3 counterexample: a dataset classified alternate-type (via the first
record), in which the second record's slot string is plain
`module-location` — not `module-mappedSide-location` — because that
record's remapped side is empty. -/
theorem C3_counterexample :
    detect_aimex [recC3a, recC3b] = true
    ∧ build_slot_string recC3b (detect_aimex [recC3a, recC3b]) = "M-L"
    ∧ ("M-L" : String) ≠ pystrip (fget recC3b "ModuleNumber") ++ "-"
        ++ mapSide (pystrip (fget recC3b "SideNo")) ++ "-"
        ++ pystrip (removeQuotes (fget recC3b "Location")) := by
  exact ⟨by decide, by decide, by decide⟩

/-- C3 (amended): the slot string is
`module-mappedSide-location` (hyphens from empty components stripped) when
the dataset is alternate-type AND the record's remapped side is nonempty,
and `module-location` (similarly stripped) otherwise — also for records of
an alternate-type dataset whose remapped side is empty; with nonempty
module and cleaned location free of boundary hyphens, the alternate-type
form is the literal concatenation. -/
theorem C3_slot_string_format (r : FeederRecord) (aimex : Bool) :
    (aimex = true → mapSide (pystrip (fget r "SideNo")) ≠ "" →
        build_slot_string r aimex
          = stripDashes (pystrip (fget r "ModuleNumber") ++ "-"
              ++ mapSide (pystrip (fget r "SideNo")) ++ "-"
              ++ pystrip (removeQuotes (fget r "Location"))))
    ∧ (aimex = false ∨ mapSide (pystrip (fget r "SideNo")) = "" →
        build_slot_string r aimex
          = stripDashes (pystrip (fget r "ModuleNumber") ++ "-"
              ++ pystrip (removeQuotes (fget r "Location"))))
    ∧ (aimex = true → mapSide (pystrip (fget r "SideNo")) ≠ "" →
        (pystrip (fget r "ModuleNumber")).data.head? ≠ some '-' →
        pystrip (fget r "ModuleNumber") ≠ "" →
        (pystrip (removeQuotes (fget r "Location"))).data.getLast? ≠ some '-' →
        pystrip (removeQuotes (fget r "Location")) ≠ "" →
        build_slot_string r aimex
          = pystrip (fget r "ModuleNumber") ++ "-"
            ++ mapSide (pystrip (fget r "SideNo")) ++ "-"
            ++ pystrip (removeQuotes (fget r "Location"))) := by
  refine ⟨?_, ?_, ?_⟩
  · intro ha hm
    unfold build_slot_string
    rw [if_pos ⟨ha, hm⟩]
  · intro h
    unfold build_slot_string
    rw [if_neg]
    intro ⟨ha, hm⟩
    rcases h with h | h
    · rw [h] at ha; cases ha
    · exact hm h
  · intro ha hm hmh hmne hlh hlne
    unfold build_slot_string
    rw [if_pos ⟨ha, hm⟩]
    exact stripDashes_concat3 _ _ _ hmne hmh hlne hlh

/-- Witness for C3 at concrete records of an alternate-type dataset: a
nonempty remapped side yields the three-part slot, an empty one the
two-part slot. -/
theorem C3_witness :
    build_slot_string recC3a true = "M-2-L"
    ∧ build_slot_string recC3b true = "M-L" := by
  constructor
  · have h := (C3_slot_string_format recC3a true).2.2 rfl (by decide) (by decide)
      (by decide) (by decide) (by decide)
    rw [h]; decide
  · have h := (C3_slot_string_format recC3b true).2.1 (Or.inr (by decide))
    rw [h]; decide

theorem is_passive_shape_iff (s : String) :
    is_passive_shape s = true ↔
      ((pyupper (pystrip s)).data.contains '_' = true
        ∧ afterFirstChar '_' (pyupper (pystrip s)).data ≠ []
        ∧ (afterFirstChar '_' (pyupper (pystrip s)).data).take 3 ≠ ['C', 'O', 'N']
        ∧ ((afterFirstChar '_' (pyupper (pystrip s)).data).headD ' ' = 'C'
            ∨ (afterFirstChar '_' (pyupper (pystrip s)).data).headD ' ' = 'R')) := by
  simp only [is_passive_shape]
  split_ifs with h1 h2 h3
  · rw [List.isEmpty_iff] at h2
    simp [h1, h2]
  · simp [h3]
  · have h2x : afterFirstChar '_' (pyupper (pystrip s)).data ≠ [] := by
      simpa [List.isEmpty_iff] using h2
    simp [h1, h2x, h3]
    intro _
    simpa using h1
  · constructor
    · intro h
      simp at h
    · intro h
      exact absurd h.1 h1

/-- C5: a data-table cell carries the passive highlight iff its row's
shape name, upper-cased and split at the first underscore, has a nonempty
remainder that does not start with `CON` and begins with `C` or `R`, and
the cell sits in the shape-name or comments column; with the claim's three
concrete shape examples. -/
theorem C5_passive_highlight (rows : List OutputRow) (r : OutputRow)
    (c v : String) (f : Bool)
    (hrow : r ∈ rows) (hc : (c, v, f) ∈ styled_row r) :
    styled_row r ∈ table_body rows
    ∧ (f = true ↔
        (((pyupper (pystrip (ofield r "Name of shape"))).data.contains '_' = true
          ∧ afterFirstChar '_' (pyupper (pystrip (ofield r "Name of shape"))).data ≠ []
          ∧ (afterFirstChar '_' (pyupper (pystrip (ofield r "Name of shape"))).data).take 3
              ≠ ['C', 'O', 'N']
          ∧ ((afterFirstChar '_' (pyupper (pystrip (ofield r "Name of shape"))).data).headD ' '
                = 'C'
              ∨ (afterFirstChar '_' (pyupper (pystrip (ofield r "Name of shape"))).data).headD ' '
                = 'R'))
          ∧ (c = "Name of shape" ∨ c = "Coments or presentations changes")))
    ∧ is_passive_shape "RC_R0402" = true
    ∧ is_passive_shape "SOIC_CON8" = false
    ∧ is_passive_shape "ABC" = false := by
  refine ⟨List.mem_map_of_mem styled_row hrow, ?_, by decide, by decide, by decide⟩
  simp only [styled_row] at hc
  obtain ⟨col, hcol, heq⟩ := List.mem_map.mp hc
  cases heq
  rw [Bool.and_eq_true, Bool.or_eq_true, beq_iff_eq, beq_iff_eq, is_passive_shape_iff]

/-- Witness for C5: the passive classification evaluated through the
highlight theorem at a concrete styled row. -/
theorem C5_witness :
    is_passive_shape "RC_R0402" = true ∧ is_passive_shape "ABC" = false := by
  have h := C5_passive_highlight [oRC] oRC "Name of shape" "RC_R0402" true
    (List.mem_singleton.mpr rfl) (by decide)
  exact ⟨h.2.2.1, h.2.2.2.2⟩

/-- `_write_excel` either fails without writing or succeeds having
written, with the row count and image count of the environment. -/
theorem write_excel_pair (env : Env) (rows : List OutputRow) :
    (∃ e, write_excel env rows = (Except.error e, false))
    ∨ write_excel env rows
        = (Except.ok
            { rowsWritten := rows.length
              imagesFound := (collect_image_stems env).length }, true) := by
  unfold write_excel
  split_ifs <;> first
    | exact Or.inr rfl
    | exact Or.inl ⟨_, rfl⟩

/-- Every failing run leaves the output file unwritten. -/
theorem run_error_no_write (env : Env) (e : PErr)
    (h : (run env).1 = Except.error e) : (run env).2 = false := by
  unfold run at h ⊢
  by_cases h1 : env.rootIsDir = true
  · rw [if_pos h1] at h ⊢
    by_cases h2 : env.ensureStructureOk = true
    · rw [if_pos h2] at h ⊢
      rcases hoc : (open_csv env.feederFileExists "" env.decode).2 with e2 | records
      · rfl
      · rw [hoc] at h
        simp only [runFromRecords, runFromOutputRows] at h ⊢
        rcases hb : build_output_rows records with e3 | orows
        · rfl
        · rw [hb] at h
          replace h : (write_excel env orows).1 = Except.error e := h
          show (write_excel env orows).2 = false
          rcases write_excel_pair env orows with ⟨e4, hw⟩ | hw
          · rw [hw]
          · rw [hw] at h
            simp at h
    · rw [if_neg h2]
  · rw [if_neg h1]

/-- No outcome of a successfully decoded parse is the encoding error. -/
theorem tryDecoded_ne_encoding (prior : String) (rows : List (List String)) :
    (tryDecoded prior rows).2 ≠ Except.error PErr.encodingProblem := by
  simp only [tryDecoded]
  split_ifs <;> simp

/-- C6 (code bug): when the file decodes under neither codec, `_open_csv`
returns an empty record list instead of raising the encoding error — the
`raise` at lines 173-176 of the source is unreachable because the `except`
clause ends in `continue` — so the reader never produces the encoding
error and such a run ends with the no-data error instead. -/
theorem C6_dead_encoding_error :
    (open_csv true "" (fun _ => none)).2 = Except.ok []
    ∧ (∀ (fe : Bool) (prior : String) (decode : Enc → Option (List (List String))),
        (open_csv fe prior decode).2 ≠ Except.error PErr.encodingProblem)
    ∧ run envC6 = (Except.error PErr.noData, false) := by
  refine ⟨rfl, ?_, rfl⟩
  intro fe prior decode
  unfold open_csv
  by_cases hfe : fe = true
  · rw [if_pos hfe]
    cases hd : decode Enc.utf8sig with
    | some rows => exact tryDecoded_ne_encoding prior rows
    | none =>
        cases hd2 : decode Enc.latin1 with
        | some rows => exact tryDecoded_ne_encoding prior rows
        | none => simp
  · rw [if_neg hfe]
    simp

/-- C7: a header row missing required columns makes the run fail with the
missing-columns error whose message names exactly the missing columns (in
required-column order), and no output file is written — as on every other
failing path.  The file may decode under UTF-8-sig or only under the
Latin-1 fallback: both reader paths are covered. -/
theorem C7_missing_columns (env : Env) (rows : List (List String))
    (hroot : env.rootIsDir = true) (hmk : env.ensureStructureOk = true)
    (hfeed : env.feederFileExists = true)
    (hdec : env.decode Enc.utf8sig = some rows
        ∨ (env.decode Enc.utf8sig = none ∧ env.decode Enc.latin1 = some rows))
    (hlen : 3 ≤ rows.length)
    (hmiss : missingOf ((rows.getD 2 []).map pystrip) ≠ []) :
    run env = (Except.error (PErr.missingColumns (missingOf ((rows.getD 2 []).map pystrip))),
        false)
    ∧ (PErr.missingColumns (missingOf ((rows.getD 2 []).map pystrip))).message
        = "Required columns are missing in FeederSetup.csv: "
          ++ String.intercalate ", " (missingOf ((rows.getD 2 []).map pystrip))
    ∧ (∀ c, c ∈ missingOf ((rows.getD 2 []).map pystrip)
          ↔ (c ∈ REQUIRED_FEEDER_COLUMNS
              ∧ ((rows.getD 2 []).map pystrip).contains c = false))
    ∧ (∀ (env2 : Env) (e : PErr), (run env2).1 = Except.error e → (run env2).2 = false) := by
  refine ⟨?_, rfl, ?_, fun env2 e h => run_error_no_write env2 e h⟩
  · have htry : tryDecoded "" rows
        = (extractLineName "" rows,
           Except.error (PErr.missingColumns (missingOf ((rows.getD 2 []).map pystrip)))) := by
      simp only [tryDecoded]
      rw [if_neg (Nat.not_lt.mpr hlen),
        if_neg (fun hemp => hmiss (List.isEmpty_iff.mp hemp))]
    have hoc : (open_csv env.feederFileExists "" env.decode).2
        = Except.error (PErr.missingColumns (missingOf ((rows.getD 2 []).map pystrip))) := by
      unfold open_csv
      rw [hfeed, if_pos rfl]
      rcases hdec with hdec | ⟨hnone, hdec⟩
      · rw [hdec]
        show (tryDecoded "" rows).2 = _
        rw [htry]
      · rw [hnone, hdec]
        show (tryDecoded "" rows).2 = _
        rw [htry]
    unfold run
    rw [if_pos hroot, if_pos hmk, hoc]
    rfl
  · intro c
    simp [missingOf, List.mem_filter]

/-- Witness for C7: a concrete header row containing only `ModuleNumber`
yields the missing-columns failure naming the other ten columns, with
nothing written — both when the file decodes under UTF-8-sig and when it
is readable only through the Latin-1 fallback. -/
theorem C7_witness :
    run envC7 = (Except.error (PErr.missingColumns ["SideNo", "Location", "PartNumber",
        "PartComment", "PackageName", "PartShapeName", "FeederType", "TapeWidth",
        "FeedPitch", "QTY"]), false)
    ∧ run envC7lat = (Except.error (PErr.missingColumns ["SideNo", "Location",
        "PartNumber", "PartComment", "PackageName", "PartShapeName", "FeederType",
        "TapeWidth", "FeedPitch", "QTY"]), false) := by
  constructor
  · have h := C7_missing_columns envC7 [[], [], ["ModuleNumber"]] rfl rfl rfl
      (Or.inl rfl) (by decide) (by decide)
    exact h.1.trans (by rfl)
  · have h := C7_missing_columns envC7lat [[], [], ["ModuleNumber"]] rfl rfl rfl
      (Or.inr ⟨rfl, rfl⟩) (by decide) (by decide)
    exact h.1.trans (by rfl)

/-- With no regular file in the images directory no part has an image. -/
theorem find_image_none_of_no_files (env : Env)
    (hnf : ∀ e2 ∈ env.imagesDir.getD [], e2.isFile = false) (pn : String) :
    find_image_for_part env pn = none := by
  unfold find_image_for_part
  by_cases hp : pystrip pn = ""
  · rw [if_pos hp]
  · rw [if_neg hp]
    cases hdir : env.imagesDir with
    | none => rfl
    | some entries =>
        rw [hdir] at hnf
        have hany : ∀ nm : String,
            entries.any (fun e2 => e2.name == nm && e2.isFile) = false := by
          intro nm
          cases ha : entries.any (fun e2 => e2.name == nm && e2.isFile) with
          | false => rfl
          | true =>
              obtain ⟨e2, he2, hpe⟩ := List.any_eq_true.mp ha
              rw [Bool.and_eq_true] at hpe
              rw [hnf e2 he2] at hpe
              exact absurd hpe.2 (by simp)
        simp [List.findSome?_cons, hany]

/-- With no regular file in the images directory nothing is embedded. -/
theorem embedded_images_nil (env : Env) (rows : List OutputRow)
    (hnf : ∀ e2 ∈ env.imagesDir.getD [], e2.isFile = false) :
    embedded_images env rows = [] := by
  unfold embedded_images
  rw [List.filterMap_eq_nil_iff]
  intro p hp
  rw [find_image_none_of_no_files env hnf]
  rfl

/-- C8 counterexample: an environment with an existing empty images
folder (so no row has a matching image asset) and no image-embedding
capability; the run fails with the missing-image-support error instead of
generating the report. -/
theorem C8_counterexample :
    envC8.imagesDir = some []
    ∧ find_image_for_part envC8 "PN1" = none
    ∧ run envC8 = (Except.error PErr.missingImageSupport, false) :=
  ⟨rfl, rfl, rfl⟩

/-- C8 (amended): the missing-image-support failure is raised exactly
when the workbook library is available, image support is absent, and there
is at least one output row — whether or not any row has a matching image;
with image support available and no regular file in the images folder, the
write succeeds with `images_found = 0`, embeds nothing, and the image
columns of every constructed row are empty. -/
theorem C8_image_support_check (env : Env) (rows : List OutputRow)
    (hw : env.workbookAvailable = true) (hi : env.imageSupportAvailable = true)
    (hs : env.saveOk = true) (himg : ∀ e2 ∈ env.imagesDir.getD [], e2.isFile = false) :
    write_excel env rows
      = (Except.ok { rowsWritten := rows.length, imagesFound := 0 }, true)
    ∧ embedded_images env rows = []
    ∧ (∀ (env2 : Env) (rows2 : List OutputRow),
        (write_excel env2 rows2).1 = Except.error PErr.missingImageSupport
          ↔ (env2.workbookAvailable = true ∧ rows2 ≠ []
              ∧ env2.imageSupportAvailable = false))
    ∧ (∀ (r : FeederRecord) (a : Bool),
        (toOutputRow r a).progPol = "" ∧ (toOutputRow r a).packPol = "") := by
  have hcoll : collect_image_stems env = [] := by
    unfold collect_image_stems
    cases hdir : env.imagesDir with
    | none => rfl
    | some entries =>
        rw [hdir] at himg
        show (entries.filter (fun e2 => e2.isFile)).map (fun e2 => pathStem e2.name) = []
        rw [List.filter_eq_nil_iff.mpr ?_]
        · rfl
        · intro e2 he2
          rw [himg e2 he2]
          simp
  refine ⟨?_, embedded_images_nil env rows himg, ?_, fun r a => ⟨rfl, rfl⟩⟩
  · have hcond : ¬((!rows.isEmpty && !env.imageSupportAvailable) = true) := by
      rw [hi]
      simp
    unfold write_excel
    rw [if_pos hw, if_neg hcond, if_pos hs, hcoll]
    rfl
  · intro env2 rows2
    unfold write_excel
    split_ifs with g1 g2 g3
    · simp only [true_iff]
      constructor
      · exact g1
      rw [Bool.and_eq_true, Bool.not_eq_eq_eq_not, Bool.not_eq_eq_eq_not] at g2
      constructor
      · intro hnil
        rw [hnil] at g2
        simp at g2
      · simpa using g2.2
    · constructor
      · intro hx
        simp at hx
      · rintro ⟨_, hne, hsup⟩
        exfalso
        apply g2
        rw [Bool.and_eq_true]
        constructor
        · simpa [List.isEmpty_iff] using hne
        · rw [hsup]
          rfl
    · constructor
      · intro hx
        simp at hx
      · rintro ⟨_, hne, hsup⟩
        exfalso
        apply g2
        rw [Bool.and_eq_true]
        constructor
        · simpa [List.isEmpty_iff] using hne
        · rw [hsup]
          rfl
    · constructor
      · intro hx
        simp at hx
      · rintro ⟨hwb, _, _⟩
        exact absurd hwb g1

/-- Witness for C8 (amended) at a concrete single-row environment with
image support and an empty images folder. -/
theorem C8_witness :
    write_excel envC8ok [toOutputRow (rQ "2") false]
      = (Except.ok { rowsWritten := 1, imagesFound := 0 }, true) := by
  have h := C8_image_support_check envC8ok [toOutputRow (rQ "2") false] rfl rfl rfl ?hnf
  · exact h.1
  case hnf =>
    intro e2 he2
    cases he2

/-- C9 counterexample: the label row holds `"Line"` at column index 8
while the value row has only 8 cells; the extraction returns the
column-7 fallback value although a label cell was found. -/
theorem C9_counterexample :
    lineLabelIdx ((rowsC9.getD 0 []).map pystrip) = some 8
    ∧ extractLineName "" rowsC9 = "v7"
    ∧ extractLineName "" rowsC9 = pystrip ((rowsC9.getD 1 []).getD 7 "") :=
  ⟨by decide, by decide, by decide⟩

/-- C9 (amended): when the label is found at an index inside the value
row, the line name is that column's trimmed value; the column-7 fallback
applies when the label is absent OR its index falls outside the value row,
provided the value row has at least 8 cells; otherwise the prior value is
kept; and the reader's parse outcome never depends on the two job-info
rows, so no failure of this extraction can abort the run. -/
theorem C9_line_name_extraction (prior : String) (r0 r1 : List String)
    (rest : List (List String)) :
    (∀ i, lineLabelIdx (r0.map pystrip) = some i → i < r1.length →
        extractLineName prior (r0 :: r1 :: rest) = pystrip (r1.getD i ""))
    ∧ ((lineLabelIdx (r0.map pystrip) = none
          ∨ ∃ i, lineLabelIdx (r0.map pystrip) = some i ∧ r1.length ≤ i) →
        8 ≤ r1.length →
        extractLineName prior (r0 :: r1 :: rest) = pystrip (r1.getD 7 ""))
    ∧ ((lineLabelIdx (r0.map pystrip) = none
          ∨ ∃ i, lineLabelIdx (r0.map pystrip) = some i ∧ r1.length ≤ i) →
        r1.length < 8 →
        extractLineName prior (r0 :: r1 :: rest) = prior)
    ∧ (∀ b0 b1 : List String,
        (tryDecoded prior (b0 :: b1 :: rest)).2 = (tryDecoded prior (r0 :: r1 :: rest)).2) := by
  refine ⟨?_, ?_, ?_, ?_⟩
  · intro i hidx hlt
    simp only [extractLineName, List.getD_cons_zero, List.getD_cons_succ]
    simp only [hidx]
    rw [if_pos hlt]
  · intro hor h8
    simp only [extractLineName, List.getD_cons_zero, List.getD_cons_succ]
    rcases hor with hnone | ⟨i, hidx, hle⟩
    · simp only [hnone]
      rw [if_pos h8]
    · simp only [hidx]
      rw [if_neg (Nat.not_lt.mpr hle), if_pos h8]
  · intro hor h8
    simp only [extractLineName, List.getD_cons_zero, List.getD_cons_succ]
    rcases hor with hnone | ⟨i, hidx, hle⟩
    · simp only [hnone]
      rw [if_neg (Nat.not_le.mpr h8)]
    · simp only [hidx]
      rw [if_neg (Nat.not_lt.mpr hle), if_neg (Nat.not_le.mpr h8)]
  · intro b0 b1
    simp only [tryDecoded, List.length_cons, List.getD_cons_zero, List.getD_cons_succ,
      List.drop_succ_cons]
    by_cases hlen : rest.length + 1 + 1 < 3
    · rw [if_pos hlen, if_pos hlen]
    · rw [if_neg hlen, if_neg hlen]
      by_cases hm : (missingOf (List.map pystrip (rest.getD 0 []))).isEmpty = true
      · rw [if_pos hm, if_pos hm]
      · rw [if_neg hm, if_neg hm]

/-- Witness for C9 (amended) at concrete job-info rows: a label hit
inside the value row, and the kept prior value with no label and a short
value row. -/
theorem C9_witness :
    extractLineName "p" [["Line"], ["v0"], ["x"]] = "v0"
    ∧ extractLineName "p" [["a"], ["v0"], ["x"]] = "p" := by
  constructor
  · have h := (C9_line_name_extraction "p" ["Line"] ["v0"] [["x"]]).1 0 (by decide) (by decide)
    rw [h]
    decide
  · exact (C9_line_name_extraction "p" ["a"] ["v0"] [["x"]]).2.2.1 (Or.inl (by decide)) (by decide)

/-- The collected stems count the regular files of the images folder. -/
theorem collect_len (env : Env) :
    (collect_image_stems env).length
      = ((env.imagesDir.getD []).filter (fun e2 => e2.isFile)).length := by
  unfold collect_image_stems
  cases hdir : env.imagesDir with
  | none => rfl
  | some entries => simp [List.length_map]

/-- C10: every successful run reports `images_found` equal to the number
of regular files in the images directory — independent of extension and of
whether any stem matches a part number — and 0 when the directory does not
exist. -/
theorem C10_images_found (env : Env) (res : ProcessResult)
    (h : (run env).1 = Except.ok res) :
    res.imagesFound = ((env.imagesDir.getD []).filter (fun e2 => e2.isFile)).length
    ∧ (env.imagesDir = none → res.imagesFound = 0) := by
  have hmain : res.imagesFound = (collect_image_stems env).length := by
    unfold run at h
    by_cases h1 : env.rootIsDir = true
    · rw [if_pos h1] at h
      by_cases h2 : env.ensureStructureOk = true
      · rw [if_pos h2] at h
        rcases hoc : (open_csv env.feederFileExists "" env.decode).2 with e2 | records
        · rw [hoc] at h
          simp [runFromRecords] at h
        · rw [hoc] at h
          simp only [runFromRecords, runFromOutputRows] at h
          rcases hb : build_output_rows records with e3 | orows
          · rw [hb] at h
            simp at h
          · rw [hb] at h
            replace h : (write_excel env orows).1 = Except.ok res := h
            rcases write_excel_pair env orows with ⟨e4, hw⟩ | hw
            · rw [hw] at h
              simp at h
            · rw [hw] at h
              simp only [Prod.fst] at h
              rw [Except.ok.injEq] at h
              rw [← h]
      · rw [if_neg h2] at h
        simp at h
    · rw [if_neg h1] at h
      simp at h
  refine ⟨hmain.trans (collect_len env), fun hnone => ?_⟩
  rw [hmain]
  unfold collect_image_stems
  rw [hnone]
  rfl

/-- Witness for C10: a successful concrete run whose images folder holds
one regular file (with no matching part number) and one subdirectory. -/
theorem C10_witness :
    run envC10 = (Except.ok { rowsWritten := 1, imagesFound := 1 }, true)
    ∧ (1 : Nat) = ((envC10.imagesDir.getD []).filter (fun e2 => e2.isFile)).length := by
  refine ⟨rfl, ?_⟩
  have h := C10_images_found envC10 { rowsWritten := 1, imagesFound := 1 } rfl
  exact h.1

end PolarityApp
